import Mathlib

/-!
Verification of the grading harness `tests/tester.py` for the calculator
exercise.  The Python source is embedded shallowly: pure string helpers model
the Python string primitives actually used (`str.strip`, `'\n'.join`,
substring containment, `str.splitlines` as used by `textwrap.indent`), the
module-level source-text cache is threaded explicitly, fallible operations
(file reads, module loading) return `Except`/`Option`, and the external
world (spawning `python3 ./calculator.py`, reading files) is an explicit
environment record.
-/

namespace Tester

/-! ### Python string primitives -/

/-- Model of Python `str.strip()` on the character list: drop whitespace from
both ends. -/
def pyStripL (cs : List Char) : List Char :=
  ((cs.dropWhile Char.isWhitespace).reverse.dropWhile Char.isWhitespace).reverse

/-- Model of Python `str.strip()`. -/
def pyStrip (s : String) : String := ⟨pyStripL s.data⟩

/-- Contiguous-substring test on character lists, modelling Python's
`needle in haystack`. -/
def containsSub (needle : List Char) : List Char → Bool
  | [] => needle.isEmpty
  | c :: rest => needle.isPrefixOf (c :: rest) || containsSub needle rest

/-- Model of Python `string in content` (substring containment). -/
def occurs (needle haystack : String) : Bool := containsSub needle.data haystack.data

/-- Model of Python `'\n'.join(xs)`. -/
def join_nl : List String → String
  | [] => ""
  | [x] => x
  | x :: rest => x ++ "\n" ++ join_nl rest

/-- Split a character list at newline characters, modelling the line
decomposition used by `textwrap.indent` (prefix decisions are per line). -/
def splitNl : List Char → List (List Char)
  | [] => [[]]
  | c :: rest =>
    match splitNl rest with
    | [] => [[c]]
    | l :: ls => if c = '\n' then [] :: l :: ls else (c :: l) :: ls

/-- Model of Python `textwrap.indent(text, pre)`: each line whose stripped
form is non-empty gets the prefix `pre`. -/
def indent (text pre : String) : String :=
  join_nl ((splitNl text.data).map (fun line =>
    if pyStripL line = [] then String.mk line else pre ++ String.mk line))

/-! ### `check_for_function` (tester.py lines 13-38)

Loading `calculator.py` as a module is an interaction with the outside
world; its possible outcomes are reified in `LoadResult`:
`specNone` models `importlib.util.spec_from_file_location` returning `None`,
`loadError` models any exception raised while parsing or executing the
module top level (the `except Exception` branch), and `loaded` carries the
`hasattr` oracle of the successfully loaded module. -/

inductive LoadResult where
  | specNone : LoadResult
  | loadError (msg : String) : LoadResult
  | loaded (hasattr : String → Bool) : LoadResult

/-- Embedding of `check_for_function(path, function_name)`: the `load`
argument is the outcome of the dynamic import of `path`.  A failed load
returns `False`; a successful load answers `hasattr(module, function_name)`.
The Python function catches every exception itself, so the embedding is a
total `Bool`-valued function. -/
def check_for_function (load : LoadResult) (function_name : String) : Bool :=
  match load with
  | .specNone => false
  | .loadError _ => false
  | .loaded hasattr => hasattr function_name

/-! ### `check_for_string` and the source-text cache (tester.py lines 43-58) -/

/-- The module-level `_file_string_cache` dict, threaded explicitly. -/
abbrev Cache := List (String × String)

/-- Embedding of `check_for_string(path, string)`.  `fs` is the file system
(`none` models `open` raising, e.g. `FileNotFoundError`).  A cache hit skips
the file read; a miss reads the file and inserts the content; a failed read
propagates as an uncaught exception (`Except.error`). -/
def check_for_string (fs : String → Option String) (cache : Cache)
    (path string : String) : Except String (Bool × Cache) :=
  match cache.lookup path with
  | some content => .ok (occurs string content, cache)
  | none =>
    match fs path with
    | some content => .ok (occurs string content, (path, content) :: cache)
    | none => .error "FileNotFoundError"

/-- A cache is coherent with the file system when every cached entry is the
file's current content. -/
def Coherent (fs : String → Option String) (cache : Cache) : Prop :=
  ∀ p c, cache.lookup p = some c → fs p = some c

/-! ### Capability detection (tester.py lines 110-147) -/

/-- The probed path, `source = "calculator.py"` in `main`. -/
def source : String := "calculator.py"

/-- Python `int()` on a boolean. -/
def py_int (b : Bool) : Nat := if b then 1 else 0

/-- The aggregated `case` value computed at tester.py lines 140-146. -/
def case_value (have_original have_divmul have_addsub have_logging
    have_debug have_seed : Bool) : Nat :=
  py_int have_original * 1 +
  py_int have_divmul * 2 +
  py_int have_addsub * 4 +
  py_int have_logging * 8 +
  py_int have_debug * 16 +
  py_int have_seed * 32

/-- One conjunct `check_for_string(source, s1) and check_for_string(source, s2)`
with Python's short-circuit evaluation: the second probe only runs when the
first returned `True`. -/
def probe_pair (fs : String → Option String) (cache : Cache)
    (s1 s2 : String) : Except String (Bool × Cache) :=
  match check_for_string fs cache source s1 with
  | .error e => .error e
  | .ok (b1, cache) =>
    if b1 then check_for_string fs cache source s2
    else .ok (false, cache)

/-- Embedding of the capability-detection block of `main` (tester.py lines
113-146): computes the six flags in source order, threading the string
cache, and packs them into the `case` integer.  Function probes go through
`check_for_function` with the load outcome `load`; string probes read the
file system `fs`. -/
def detect (load : LoadResult) (fs : String → Option String) (cache : Cache) :
    Except String (Nat × Cache) :=
  let have_original := check_for_function load "add" &&
    check_for_function load "subtract" && check_for_function load "main"
  let have_divmul := check_for_function load "divide" &&
    check_for_function load "multiply"
  match probe_pair fs cache "Adding then subtracting!" "Subtracting then adding!" with
  | .error e => .error e
  | .ok (have_addsub, cache) =>
  match probe_pair fs cache "import logging" "logging.basicConfig" with
  | .error e => .error e
  | .ok (have_logging, cache) =>
  match probe_pair fs cache "import argparse" "--debug" with
  | .error e => .error e
  | .ok (have_debug, cache) =>
  match probe_pair fs cache "import argparse" "--seed" with
  | .error e => .error e
  | .ok (have_seed, cache) =>
    .ok (case_value have_original have_divmul have_addsub have_logging
      have_debug have_seed, cache)

/-! ### `check_run` (tester.py lines 63-101) -/

/-- The sentinel `ITERATION = '{i}'`. -/
def ITERATION : String := "{i}"

/-- The command list built for iteration `i` (0-based loop index): start from
`['python3', './calculator.py']`, append each argument, expanding the
`ITERATION` sentinel to `--seed` followed by `str(i+1)`. -/
def build_cmd (args : List String) (i : Nat) : List String :=
  args.foldl (fun cmd arg =>
    if arg = ITERATION then cmd ++ ["--seed", toString (i + 1)] else cmd ++ [arg])
    ["python3", "./calculator.py"]

/-- The external world: `run cmd i` is the combined stdout+stderr text and
return code of the subprocess spawned with command `cmd` at iteration `i`
(the index lets the model express that repeated runs of the same command may
print different text); `read_file` is the file system used for fixture
loads (`none` models `open` raising). -/
structure Env where
  run : List String → Nat → String × Int
  read_file : String → Option String

/-- How one `check_run` terminates: `ok` falls through, `exitFail` is
`exit(1)`, `crash` is an uncaught exception. -/
inductive Outcome where
  | ok : Outcome
  | exitFail : Outcome
  | crash (msg : String) : Outcome
deriving DecidableEq, Repr

/-- Observable result of one `check_run`: the commands actually spawned in
order, whether the fixture comparison was reached, the mismatch report (the
two `textwrap.indent`-rendered texts logged on mismatch), and the outcome. -/
structure RunResult where
  invocations : List (List String)
  compared : Bool
  report : Option (String × String)
  outcome : Outcome
deriving DecidableEq, Repr

/-- The `for i in range(count)` loop of `check_run`: spawn each command,
abort with `exit(1)` on a non-zero return code, and collect each non-empty
output stripped (`if output: outputs.append(output.strip())`). -/
def run_iters (env : Env) (args : List String) :
    List Nat → List (List String) → List String →
    List (List String) × List String × Bool
  | [], invs, outputs => (invs, outputs, true)
  | i :: rest, invs, outputs =>
    let cmd := build_cmd args i
    let (output, rc) := env.run cmd i
    if rc ≠ 0 then (invs ++ [cmd], outputs, false)
    else run_iters env args rest (invs ++ [cmd])
      (if output ≠ "" then outputs ++ [pyStrip output] else outputs)

/-- Embedding of `check_run(expected_results_file, count, args)`.  After the
invocation loop, the joined outputs are stripped once more, the fixture file
is read (a failed read is an uncaught exception) and stripped, and an exact
string mismatch is a fatal failure reporting both texts indented by four
spaces. -/
def check_run (env : Env) (expected_results_file : String) (count : Nat)
    (args : List String) : RunResult :=
  match run_iters env args (List.range count) [] [] with
  | (invs, _, false) => ⟨invs, false, none, .exitFail⟩
  | (invs, outputs, true) =>
    let actual_output := pyStrip (join_nl outputs)
    match env.read_file expected_results_file with
    | none => ⟨invs, false, none, .crash "FileNotFoundError"⟩
    | some text =>
      let expected_output := pyStrip text
      if expected_output ≠ actual_output then
        ⟨invs, true, some (indent expected_output "    ", indent actual_output "    "),
          .exitFail⟩
      else
        ⟨invs, true, none, .ok⟩

/-- The raw captured outputs of the `count` invocations a `check_run` with
arguments `args` performs. -/
def raw_outputs (env : Env) (args : List String) (count : Nat) : List String :=
  (List.range count).map (fun i => (env.run (build_cmd args i) i).1)

/-- The output-collection loop of `check_run` in isolation: non-empty raw
outputs are stripped and appended in order, empty ones are skipped. -/
def collect_outputs (raws : List String) : List String :=
  raws.foldl (fun outputs output =>
    if output ≠ "" then outputs ++ [pyStrip output] else outputs) []

/-- The `actual_output` a `check_run` compares, as a function of the raw
captured outputs (tester.py lines 86-90). -/
def actual_output_of (raws : List String) : String :=
  pyStrip (join_nl (collect_outputs raws))

/-- Modelled from the spec: ActualOutput as §4.4 words it — every run's
output individually stripped, joined with newlines in order, the joined
result stripped once more, with no run's output omitted.  Stated for
comparison with `actual_output_of`, which is translated from the code. -/
def actual_output_spec (raws : List String) : String :=
  pyStrip (join_nl (raws.map pyStrip))

/-! ### Scenario table and driver (tester.py lines 158-203) -/

/-- One planned `check_run` call: fixture file, repetition count, extra
arguments. -/
structure RunSpec where
  expected_results_file : String
  count : Nat
  args : List String
deriving DecidableEq, Repr

/-- The `_run_multiple(base, seed)` helper as the sequence of `check_run`
calls it issues: plain, `--debug`, and (only when seeded) 100 iterations of
`--debug --seed <n>`. -/
def _run_multiple (base : String) (seed : Bool) : List RunSpec :=
  [⟨base ++ ".txt", 1, []⟩, ⟨base ++ "-debug.txt", 1, ["--debug"]⟩] ++
  (if seed then [⟨base ++ "-seeds.txt", 100, ["--debug", ITERATION]⟩] else [])

/-- The `if case == ...` dispatch chain of `main` (tester.py lines 165-203)
as a table from the `case` value to the planned `check_run` calls; `none` is
the `else` branch ("Did not find a valid testing scenario -- fail",
`exit(1)`). -/
def scenario (case_val : Nat) : Option (List RunSpec) :=
  if case_val = 1 then some [⟨"tests/expected-results-1-original.txt", 1, []⟩]
  else if case_val = 3 then some [⟨"tests/expected-results-3-divmul.txt", 1, []⟩]
  else if case_val = 5 then some [⟨"tests/expected-results-5-addsub.txt", 1, []⟩]
  else if case_val = 9 then some [⟨"tests/expected-results-9-logging.txt", 1, []⟩]
  else if case_val = 25 then some (_run_multiple "tests/expected-results-25-logging" false)
  else if case_val = 57 then some (_run_multiple "tests/expected-results-57-seed" true)
  else if case_val = 59 then some (_run_multiple "tests/expected-results-59-divmul" true)
  else if case_val = 61 then some (_run_multiple "tests/expected-results-61-addsub" true)
  else if case_val = 63 then some (_run_multiple "tests/expected-results-63-all" true)
  else none

/-- Sequential execution of a scenario's `check_run` calls: each call whose
outcome is not `ok` terminates the process, so later RunSpecs never run. -/
def run_specs (env : Env) : List RunSpec → List RunResult
  | [] => []
  | spec :: rest =>
    let r := check_run env spec.expected_results_file spec.count spec.args
    if r.outcome = .ok then r :: run_specs env rest else [r]

/-- Fold a list of run results into the harness outcome: the first non-`ok`
outcome wins, otherwise `ok` (= "SUCCESS!", exit 0). -/
def plan_outcome : List RunResult → Outcome
  | [] => .ok
  | r :: rest => if r.outcome = .ok then plan_outcome rest else r.outcome

/-- Dispatch on the detected `case` value: an unrecognized value runs
nothing and is `exit(1)`; a recognized one executes its RunSpecs in order. -/
def dispatch (env : Env) (case_val : Nat) : List RunResult × Outcome :=
  match scenario case_val with
  | none => ([], .exitFail)
  | some specs =>
    let rs := run_specs env specs
    (rs, plan_outcome rs)

/-! ### Concrete worlds used by the witness theorems -/

/-- A load outcome exposing exactly `add`, `subtract`, `main`. -/
def load_w : LoadResult :=
  .loaded (fun n => n = "add" || n = "subtract" || n = "main")

/-- A calculator source containing both logging markers and no other
literal marker. -/
def content_w : String :=
  "import logging\nlogging.basicConfig(level=logging.INFO)\ndef main():\n    pass\n"

/-- A file system holding only `calculator.py` with content `content_w`. -/
def fs_w : String → Option String :=
  fun p => if p = source then some content_w else none

/-- A world whose every invocation succeeds with empty output and whose
every file is empty. -/
def env_w : Env := ⟨fun _ _ => ("", 0), fun _ => some ""⟩

/-- A world whose every invocation exits with return code 1. -/
def env_fail : Env := ⟨fun _ _ => ("", 1), fun _ => some ""⟩

/-- A world whose single invocation prints ` hello\n` and whose fixture file
holds `hello ` — equal after stripping. -/
def env_cmp : Env := ⟨fun _ _ => (" hello\n", 0), fun _ => some "hello "⟩

/-- A world whose invocations succeed but where no file can be read. -/
def env_nofix : Env := ⟨fun _ _ => ("out", 0), fun _ => none⟩

/-- A file system where every read fails. -/
def fs_none : String → Option String := fun _ => none

/-- A load outcome exposing every probed function. -/
def load_all : LoadResult := .loaded (fun _ => true)

/-- A calculator source containing every literal marker the detector
probes. -/
def content_full : String :=
  "Adding then subtracting! Subtracting then adding! import logging logging.basicConfig import argparse --debug --seed"

/-- A calculator source containing no literal marker. -/
def content_plain : String := "nothing here"

/-- A file system serving `content_full` for `calculator.py`. -/
def fs_full : String → Option String :=
  fun p => if p = source then some content_full else none

/-- A file system serving `content_plain` for `calculator.py`. -/
def fs_plain : String → Option String :=
  fun p => if p = source then some content_plain else none

/-! ### Helper lemmas on the string cache -/

theorem coherent_nil (fs : String → Option String) : Coherent fs [] := by
  intro p c h
  simp [List.lookup] at h

theorem check_for_string_spec (fs : String → Option String) (cache : Cache)
    (path s content : String) (hC : Coherent fs cache) (hfs : fs path = some content) :
    ∃ cache', check_for_string fs cache path s = .ok (occurs s content, cache') ∧
      Coherent fs cache' := by
  unfold check_for_string
  cases hc : cache.lookup path with
  | some c =>
    have hfc := hC path c hc
    rw [hfs] at hfc
    injection hfc with hcc
    subst hcc
    exact ⟨cache, rfl, hC⟩
  | none =>
    rw [hfs]
    refine ⟨(path, content) :: cache, rfl, ?_⟩
    intro p c hpc
    by_cases hp : p = path
    · subst hp
      simp [List.lookup] at hpc
      rw [hpc] at hfs
      exact hfs
    · have hb : (p == path) = false := by simp [hp]
      simp [List.lookup, hb] at hpc
      exact hC p c hpc

theorem probe_pair_spec (fs : String → Option String) (cache : Cache)
    (s1 s2 content : String) (hC : Coherent fs cache) (hfs : fs source = some content) :
    ∃ cache', probe_pair fs cache s1 s2 =
      .ok (occurs s1 content && occurs s2 content, cache') ∧ Coherent fs cache' := by
  obtain ⟨c1, h1, hC1⟩ := check_for_string_spec fs cache source s1 content hC hfs
  unfold probe_pair
  rw [h1]
  cases hb : occurs s1 content with
  | false => exact ⟨c1, by simp, hC1⟩
  | true =>
    obtain ⟨c2, h2, hC2⟩ := check_for_string_spec fs c1 source s2 content hC1 hfs
    exact ⟨c2, by simp [h2], hC2⟩

theorem detect_spec (load : LoadResult) (fs : String → Option String)
    (cache : Cache) (content : String)
    (hC : Coherent fs cache) (hfs : fs source = some content) :
    ∃ cache', detect load fs cache = .ok
      (case_value
        (check_for_function load "add" && check_for_function load "subtract" &&
          check_for_function load "main")
        (check_for_function load "divide" && check_for_function load "multiply")
        (occurs "Adding then subtracting!" content &&
          occurs "Subtracting then adding!" content)
        (occurs "import logging" content && occurs "logging.basicConfig" content)
        (occurs "import argparse" content && occurs "--debug" content)
        (occurs "import argparse" content && occurs "--seed" content),
      cache') ∧ Coherent fs cache' := by
  obtain ⟨c1, h1, hC1⟩ :=
    probe_pair_spec fs cache "Adding then subtracting!" "Subtracting then adding!" content hC hfs
  obtain ⟨c2, h2, hC2⟩ :=
    probe_pair_spec fs c1 "import logging" "logging.basicConfig" content hC1 hfs
  obtain ⟨c3, h3, hC3⟩ :=
    probe_pair_spec fs c2 "import argparse" "--debug" content hC2 hfs
  obtain ⟨c4, h4, hC4⟩ :=
    probe_pair_spec fs c3 "import argparse" "--seed" content hC3 hfs
  refine ⟨c4, ?_, hC4⟩
  simp only [detect, h1, h2, h3, h4]

/-! ### Claim theorems -/

/-- C1: the six capability flags are computed exactly per the detection
table — `have_original` iff `add`, `subtract`, `main` are all present;
`have_divmul` iff `divide` and `multiply` are present; `have_addsub`,
`have_logging` iff their two literals occur; and `have_debug` and
`have_seed` each independently re-check the literal "import argparse"
together with their own flag literal.  No flag is inferred from another:
each argument of `case_value` below is built only from its own probes. -/
theorem C1_detection_table (load : LoadResult) (fs : String → Option String)
    (cache : Cache) (content : String)
    (hC : Coherent fs cache) (hfs : fs source = some content) :
    ∃ cache', detect load fs cache = .ok
      (case_value
        (check_for_function load "add" && check_for_function load "subtract" &&
          check_for_function load "main")
        (check_for_function load "divide" && check_for_function load "multiply")
        (occurs "Adding then subtracting!" content &&
          occurs "Subtracting then adding!" content)
        (occurs "import logging" content && occurs "logging.basicConfig" content)
        (occurs "import argparse" content && occurs "--debug" content)
        (occurs "import argparse" content && occurs "--seed" content),
      cache') ∧ Coherent fs cache' :=
  detect_spec load fs cache content hC hfs

/-- Witness for C1 at a concrete world: a target exposing `add`, `subtract`,
`main` plus both logging markers detects as case 9. -/
theorem C1_detection_table_witness :
    Coherent fs_w [] ∧ fs_w source = some content_w ∧
    detect load_w fs_w [] = .ok (9, [(source, content_w)]) ∧
    (∃ cache', detect load_w fs_w [] = .ok
      (case_value
        (check_for_function load_w "add" && check_for_function load_w "subtract" &&
          check_for_function load_w "main")
        (check_for_function load_w "divide" && check_for_function load_w "multiply")
        (occurs "Adding then subtracting!" content_w &&
          occurs "Subtracting then adding!" content_w)
        (occurs "import logging" content_w && occurs "logging.basicConfig" content_w)
        (occurs "import argparse" content_w && occurs "--debug" content_w)
        (occurs "import argparse" content_w && occurs "--seed" content_w),
      cache') ∧ Coherent fs_w cache') :=
  ⟨coherent_nil fs_w, rfl, rfl,
    C1_detection_table load_w fs_w [] content_w (coherent_nil fs_w) rfl⟩

/-- C2: the capability mask is the weighted sum of the flags with weights
1, 2, 4, 8, 16, 32; the map from boolean 6-tuples to masks is injective and
onto {0..63}; and flipping any single flag changes the mask by exactly that
flag's weight. -/
theorem C2_mask_bijection :
    (∀ o d a l dbg s : Bool, case_value o d a l dbg s =
      py_int o * 1 + py_int d * 2 + py_int a * 4 + py_int l * 8 +
        py_int dbg * 16 + py_int s * 32) ∧
    (∀ o d a l dbg s o' d' a' l' dbg' s' : Bool,
      case_value o d a l dbg s = case_value o' d' a' l' dbg' s' →
      o = o' ∧ d = d' ∧ a = a' ∧ l = l' ∧ dbg = dbg' ∧ s = s') ∧
    (∀ o d a l dbg s : Bool, case_value o d a l dbg s < 64) ∧
    (∀ n : Fin 64, ∃ o d a l dbg s : Bool, case_value o d a l dbg s = n.val) ∧
    (∀ d a l dbg s, case_value true d a l dbg s = case_value false d a l dbg s + 1) ∧
    (∀ o a l dbg s, case_value o true a l dbg s = case_value o false a l dbg s + 2) ∧
    (∀ o d l dbg s, case_value o d true l dbg s = case_value o d false l dbg s + 4) ∧
    (∀ o d a dbg s, case_value o d a true dbg s = case_value o d a false dbg s + 8) ∧
    (∀ o d a l s, case_value o d a l true s = case_value o d a l false s + 16) ∧
    (∀ o d a l dbg, case_value o d a l dbg true = case_value o d a l dbg false + 32) :=
  ⟨by decide, by decide, by decide, by decide, by decide, by decide, by decide,
    by decide, by decide, by decide⟩

/-- Witness for C2's injectivity implication at a concrete flag tuple. -/
theorem C2_mask_bijection_witness :
    case_value true false true false false false =
      case_value true false true false false false ∧
    (true = true ∧ false = false ∧ true = true ∧ false = false ∧
      false = false ∧ false = false) :=
  ⟨rfl, C2_mask_bijection.2.1 true false true false false false
    true false true false false false rfl⟩

/-- C8: a failed module load — `spec_from_file_location` returning `None` or
any exception during parse or top-level execution — makes the
function-presence probe return `false`; the probe is a total `Bool`-valued
function, so a loading failure is never escalated to the caller. -/
theorem C8_load_failure_recovered :
    (∀ msg function_name, check_for_function (.loadError msg) function_name = false) ∧
    (∀ function_name, check_for_function .specNone function_name = false) ∧
    (∀ hasattr function_name,
      check_for_function (.loaded hasattr) function_name = hasattr function_name) :=
  ⟨fun _ _ => rfl, fun _ => rfl, fun _ _ => rfl⟩

/-- C3: scenario resolution is total — mask 1 plans exactly one
no-extra-argument run against `tests/expected-results-1-original.txt`, and
analogously masks 3, 5 and 9; every mask outside the closed table runs
nothing and terminates with `exit(1)` (`exitFail`), never an exception
(`crash`) or a silent default. -/
theorem C3_scenario_total :
    scenario 1 = some [⟨"tests/expected-results-1-original.txt", 1, []⟩] ∧
    scenario 3 = some [⟨"tests/expected-results-3-divmul.txt", 1, []⟩] ∧
    scenario 5 = some [⟨"tests/expected-results-5-addsub.txt", 1, []⟩] ∧
    scenario 9 = some [⟨"tests/expected-results-9-logging.txt", 1, []⟩] ∧
    ∀ case_val : Nat, case_val ∉ ([1, 3, 5, 9, 25, 57, 59, 61, 63] : List Nat) →
      scenario case_val = none ∧
      ∀ env : Env, dispatch env case_val = ([], .exitFail) := by
  refine ⟨rfl, rfl, rfl, rfl, ?_⟩
  intro n h
  simp only [List.mem_cons, List.not_mem_nil, or_false] at h
  push_neg at h
  obtain ⟨h1, h3, h5, h9, h25, h57, h59, h61, h63⟩ := h
  have hs : scenario n = none := by
    simp [scenario, h1, h3, h5, h9, h25, h57, h59, h61, h63]
  exact ⟨hs, fun env => by simp [dispatch, hs]⟩

/-- Witness for C3's unrecognized-mask branch at mask 0. -/
theorem C3_scenario_total_witness :
    (0 : Nat) ∉ ([1, 3, 5, 9, 25, 57, 59, 61, 63] : List Nat) ∧
    scenario 0 = none ∧ dispatch env_w 0 = ([], .exitFail) :=
  ⟨by decide, (C3_scenario_total.2.2.2.2 0 (by decide)).1,
    (C3_scenario_total.2.2.2.2 0 (by decide)).2 env_w⟩

/-- C4: each seeded multi-run mask (57, 59, 61, 63) expands to exactly three
RunSpecs — plain against `<base>.txt`, `--debug` against `<base>-debug.txt`,
and 100 repetitions of `--debug` plus the iteration sentinel against
`<base>-seeds.txt` — while the unseeded mask 25 expands to exactly the first
two; and the command built for 0-based iteration `i` of the seeded RunSpec
passes `--debug` followed by `--seed` and the 1-based index `i + 1`, so the
100 invocations carry the seed values 1..100 in strictly increasing order. -/
theorem C4_multirun_expansion :
    scenario 25 = some [⟨"tests/expected-results-25-logging.txt", 1, []⟩,
      ⟨"tests/expected-results-25-logging-debug.txt", 1, ["--debug"]⟩] ∧
    scenario 57 = some [⟨"tests/expected-results-57-seed.txt", 1, []⟩,
      ⟨"tests/expected-results-57-seed-debug.txt", 1, ["--debug"]⟩,
      ⟨"tests/expected-results-57-seed-seeds.txt", 100, ["--debug", ITERATION]⟩] ∧
    scenario 59 = some [⟨"tests/expected-results-59-divmul.txt", 1, []⟩,
      ⟨"tests/expected-results-59-divmul-debug.txt", 1, ["--debug"]⟩,
      ⟨"tests/expected-results-59-divmul-seeds.txt", 100, ["--debug", ITERATION]⟩] ∧
    scenario 61 = some [⟨"tests/expected-results-61-addsub.txt", 1, []⟩,
      ⟨"tests/expected-results-61-addsub-debug.txt", 1, ["--debug"]⟩,
      ⟨"tests/expected-results-61-addsub-seeds.txt", 100, ["--debug", ITERATION]⟩] ∧
    scenario 63 = some [⟨"tests/expected-results-63-all.txt", 1, []⟩,
      ⟨"tests/expected-results-63-all-debug.txt", 1, ["--debug"]⟩,
      ⟨"tests/expected-results-63-all-seeds.txt", 100, ["--debug", ITERATION]⟩] ∧
    (∀ i : Nat, build_cmd ["--debug", ITERATION] i =
      ["python3", "./calculator.py", "--debug", "--seed", toString (i + 1)]) ∧
    (List.range 100).map (build_cmd ["--debug", ITERATION]) =
      (List.range 100).map (fun i =>
        ["python3", "./calculator.py", "--debug", "--seed", toString (i + 1)]) := by
  refine ⟨rfl, rfl, rfl, rfl, rfl, fun i => rfl, ?_⟩
  exact List.map_congr_left (fun i _ => rfl)

/-- Helper: the output-collection fold of `check_run` appends the stripped
non-empty raw outputs to any accumulator. -/
theorem collect_foldl (raws : List String) : ∀ acc : List String,
    raws.foldl (fun outputs output =>
      if output ≠ "" then outputs ++ [pyStrip output] else outputs) acc =
    acc ++ collect_outputs raws := by
  induction raws with
  | nil => intro acc; simp [collect_outputs]
  | cons x xs ih =>
    intro acc
    simp only [List.foldl_cons, collect_outputs]
    rw [ih, ih]
    by_cases hx : x = "" <;> simp [hx]

/-- C5 counterexample: a run whose captured output is the empty string is
dropped from the concatenation, so the code's ActualOutput differs from the
spec's no-output-omitted joining rule on the outputs `["a", "", "b"]`. -/
theorem C5_empty_output_omitted :
    actual_output_of ["a", "", "b"] ≠ actual_output_spec ["a", "", "b"] := by
  decide

/-- C5 (amended): ActualOutput is formed from the runs' captured outputs by
dropping every empty output, stripping each remaining output, joining with
single newlines in invocation order, and stripping the joined result once
more; when no run's output is empty this coincides with the spec's
every-output-joined rule. -/
theorem C5_output_joining :
    (∀ raws, collect_outputs raws = (raws.filter (fun o => o ≠ "")).map pyStrip) ∧
    (∀ raws, actual_output_of raws =
      pyStrip (join_nl ((raws.filter (fun o => o ≠ "")).map pyStrip))) ∧
    (∀ raws : List String, "" ∉ raws →
      actual_output_of raws = actual_output_spec raws) := by
  have hc : ∀ raws : List String,
      collect_outputs raws = (raws.filter (fun o => o ≠ "")).map pyStrip := by
    intro raws
    induction raws with
    | nil => simp [collect_outputs]
    | cons x xs ih =>
      have step : collect_outputs (x :: xs) =
          (if x ≠ "" then [pyStrip x] else []) ++ collect_outputs xs := by
        simp only [collect_outputs, List.foldl_cons]
        rw [collect_foldl]
        by_cases hx : x = "" <;> simp [hx, collect_outputs, ite_not]
      rw [step, ih, List.filter_cons]
      by_cases hx : x = "" <;> simp [hx]
  refine ⟨hc, fun raws => by rw [actual_output_of, hc], ?_⟩
  intro raws hraws
  have hf : raws.filter (fun o => o ≠ "") = raws := by
    rw [List.filter_eq_self]
    intro a ha
    simp only [ne_eq, decide_eq_true_eq]
    intro hae
    exact hraws (hae ▸ ha)
  rw [actual_output_of, hc, hf, actual_output_spec]

/-- Witness for C5's agreement conjunct on outputs with no empty run. -/
theorem C5_output_joining_witness :
    ("" : String) ∉ (["ab", "cd"] : List String) ∧
    actual_output_of ["ab", "cd"] = actual_output_spec ["ab", "cd"] :=
  ⟨by decide, C5_output_joining.2.2 ["ab", "cd"] (by decide)⟩

/-- Helper: `collect_outputs` on a cons prepends the stripped head when the
head is non-empty. -/
theorem collect_outputs_cons (x : String) (xs : List String) :
    collect_outputs (x :: xs) =
      (if x ≠ "" then [pyStrip x] else []) ++ collect_outputs xs := by
  simp only [collect_outputs, List.foldl_cons]
  rw [collect_foldl]
  by_cases hx : x = "" <;> simp [hx, collect_outputs, ite_not]

/-- Helper: when every invocation in the index list returns 0, the loop runs
them all, records every command, collects the non-empty stripped outputs and
reports success. -/
theorem run_iters_ok (env : Env) (args : List String) :
    ∀ (l : List Nat) (invs : List (List String)) (outputs : List String),
    (∀ i ∈ l, (env.run (build_cmd args i) i).2 = 0) →
    run_iters env args l invs outputs =
      (invs ++ l.map (build_cmd args),
       outputs ++ collect_outputs (l.map (fun i => (env.run (build_cmd args i) i).1)),
       true) := by
  intro l
  induction l with
  | nil =>
    intro invs outputs _
    simp [run_iters, collect_outputs]
  | cons i rest ih =>
    intro invs outputs h
    have hi := h i (List.mem_cons_self i rest)
    have hrest : ∀ j ∈ rest, (env.run (build_cmd args j) j).2 = 0 :=
      fun j hj => h j (List.mem_cons_of_mem i hj)
    simp only [run_iters, List.map_cons, collect_outputs_cons]
    rcases hp : env.run (build_cmd args i) i with ⟨out, rc⟩
    rw [hp] at hi
    simp only at hi
    subst hi
    simp only [hp]
    rw [ih _ _ hrest]
    by_cases ho : out = "" <;> simp [ho]

/-- Helper: when every invocation before index `j` returns 0 and the one at
`j` does not, the loop stops right after `j`, recording exactly the commands
up to and including `j` and reporting failure. -/
theorem run_iters_fail (env : Env) (args : List String) (j : Nat)
    (hfail : (env.run (build_cmd args j) j).2 ≠ 0) :
    ∀ (l1 l2 : List Nat) (invs : List (List String)) (outputs : List String),
    (∀ i ∈ l1, (env.run (build_cmd args i) i).2 = 0) →
    ∃ outs, run_iters env args (l1 ++ j :: l2) invs outputs =
      (invs ++ (l1 ++ [j]).map (build_cmd args), outs, false) := by
  intro l1
  induction l1 with
  | nil =>
    intro l2 invs outputs _
    refine ⟨outputs, ?_⟩
    simp only [List.nil_append, run_iters, List.map_cons, List.map_nil]
    rcases hp : env.run (build_cmd args j) j with ⟨out, rc⟩
    rw [hp] at hfail
    simp only at hfail
    simp [hp, hfail]
  | cons i rest ih =>
    intro l2 invs outputs h
    have hi := h i (List.mem_cons_self i rest)
    have hrest : ∀ k ∈ rest, (env.run (build_cmd args k) k).2 = 0 :=
      fun k hk => h k (List.mem_cons_of_mem i hk)
    simp only [List.cons_append, run_iters]
    rcases hp : env.run (build_cmd args i) i with ⟨out, rc⟩
    rw [hp] at hi
    simp only at hi
    subst hi
    simp only [hp]
    obtain ⟨outs, ho⟩ := ih l2 (invs ++ [build_cmd args i])
      (if out ≠ "" then outputs ++ [pyStrip out] else outputs) hrest
    refine ⟨outs, ?_⟩
    simp only [ne_eq, ite_not, if_true, List.append_eq] at ho ⊢
    rw [ho]
    simp

/-- C6: if the invocation at 0-based index `j` of a RunSpec returns a
non-zero exit status (all earlier ones returning zero), the harness records
exactly the invocations up to `j` — no remaining repetition runs — reaches
no fixture comparison (`compared = false`, no report), terminates with
`exit(1)`, and no further RunSpec is executed. -/
theorem C6_invocation_failure_aborts (env : Env) (expected_results_file : String)
    (count : Nat) (args : List String) (rest : List RunSpec) (j : Nat)
    (hj : j < count)
    (hok : ∀ i, i < j → (env.run (build_cmd args i) i).2 = 0)
    (hfail : (env.run (build_cmd args j) j).2 ≠ 0) :
    check_run env expected_results_file count args =
      ⟨(List.range (j + 1)).map (build_cmd args), false, none, .exitFail⟩ ∧
    run_specs env (⟨expected_results_file, count, args⟩ :: rest) =
      [⟨(List.range (j + 1)).map (build_cmd args), false, none, .exitFail⟩] := by
  have hsplit : List.range count =
      List.range j ++ j :: (List.range (count - (j + 1))).map ((j + 1) + ·) := by
    have h1 : count = (j + 1) + (count - (j + 1)) := by omega
    calc List.range count
        = List.range ((j + 1) + (count - (j + 1))) := by rw [← h1]
      _ = List.range (j + 1) ++ (List.range (count - (j + 1))).map ((j + 1) + ·) :=
          List.range_add _ _
      _ = (List.range j ++ [j]) ++ (List.range (count - (j + 1))).map ((j + 1) + ·) := by
          rw [List.range_succ]
      _ = List.range j ++ j :: (List.range (count - (j + 1))).map ((j + 1) + ·) := by
          simp
  obtain ⟨outs, hrun⟩ := run_iters_fail env args j hfail (List.range j)
    ((List.range (count - (j + 1))).map ((j + 1) + ·)) [] []
    (fun i hi => hok i (List.mem_range.mp hi))
  have hcr : check_run env expected_results_file count args =
      ⟨(List.range (j + 1)).map (build_cmd args), false, none, .exitFail⟩ := by
    rw [check_run, hsplit, hrun]
    simp [← List.range_succ]
  exact ⟨hcr, by simp [run_specs, hcr]⟩

/-- Witness for C6: a world whose first invocation exits 1 stops after one
invocation of a two-repetition RunSpec, compares nothing, and runs no
further RunSpec. -/
theorem C6_invocation_failure_aborts_witness :
    (0 < 2) ∧ (env_fail.run (build_cmd [] 0) 0).2 ≠ 0 ∧
    check_run env_fail "tests/expected-results-1-original.txt" 2 [] =
      ⟨(List.range (0 + 1)).map (build_cmd []), false, none, .exitFail⟩ ∧
    run_specs env_fail (⟨"tests/expected-results-1-original.txt", 2, []⟩ :: []) =
      [⟨(List.range (0 + 1)).map (build_cmd []), false, none, .exitFail⟩] := by
  have h := C6_invocation_failure_aborts env_fail
    "tests/expected-results-1-original.txt" 2 [] [] 0 (by decide)
    (fun i hi => absurd hi (Nat.not_lt_zero i)) (by decide)
  exact ⟨by decide, by decide, h.1, h.2⟩

/-- C7: when every invocation succeeds and the fixture file is readable, the
RunSpec passes iff the fixture text stripped of surrounding whitespace is
exactly string-equal to ActualOutput; a mismatch is fatal — the result
reports both texts rendered with four-space indentation, terminates with
`exit(1)`, and no further RunSpec runs — while a match continues to the
remaining RunSpecs. -/
theorem C7_comparator_exact (env : Env) (expected_results_file text : String)
    (count : Nat) (args : List String) (rest : List RunSpec)
    (hok : ∀ i, i < count → (env.run (build_cmd args i) i).2 = 0)
    (htext : env.read_file expected_results_file = some text) :
    ((check_run env expected_results_file count args).outcome = .ok ↔
      pyStrip text = actual_output_of (raw_outputs env args count)) ∧
    (pyStrip text ≠ actual_output_of (raw_outputs env args count) →
      check_run env expected_results_file count args =
        ⟨(List.range count).map (build_cmd args), true,
          some (indent (pyStrip text) "    ",
            indent (actual_output_of (raw_outputs env args count)) "    "),
          .exitFail⟩ ∧
      run_specs env (⟨expected_results_file, count, args⟩ :: rest) =
        [check_run env expected_results_file count args]) ∧
    (pyStrip text = actual_output_of (raw_outputs env args count) →
      check_run env expected_results_file count args =
        ⟨(List.range count).map (build_cmd args), true, none, .ok⟩ ∧
      run_specs env (⟨expected_results_file, count, args⟩ :: rest) =
        check_run env expected_results_file count args :: run_specs env rest) := by
  have hrun := run_iters_ok env args (List.range count) [] []
    (fun i hi => hok i (List.mem_range.mp hi))
  have hA : actual_output_of (raw_outputs env args count) =
      pyStrip (join_nl (collect_outputs ((List.range count).map
        (fun i => (env.run (build_cmd args i) i).1)))) := rfl
  by_cases hm : pyStrip text = actual_output_of (raw_outputs env args count)
  · have hcr : check_run env expected_results_file count args =
        ⟨(List.range count).map (build_cmd args), true, none, .ok⟩ := by
      simp only [check_run, hrun, htext, List.nil_append]
      rw [← hA, if_neg (not_not_intro hm)]
    refine ⟨by rw [hcr]; exact iff_of_true rfl hm,
      fun hne => absurd hm hne, fun _ => ⟨hcr, ?_⟩⟩
    simp [run_specs, hcr]
  · have hcr : check_run env expected_results_file count args =
        ⟨(List.range count).map (build_cmd args), true,
          some (indent (pyStrip text) "    ",
            indent (actual_output_of (raw_outputs env args count)) "    "),
          .exitFail⟩ := by
      simp only [check_run, hrun, htext, List.nil_append]
      rw [← hA, if_pos hm]
    refine ⟨?_, fun _ => ⟨hcr, by simp [run_specs, hcr]⟩, fun he => absurd he hm⟩
    refine iff_of_false ?_ hm
    rw [hcr]
    simp

/-- Witness for C7 at a world whose single run prints ` hello\n` against a
fixture holding `hello ` — equal after stripping, so the RunSpec passes. -/
theorem C7_comparator_exact_witness :
    (∀ i, i < 1 → (env_cmp.run (build_cmd [] i) i).2 = 0) ∧
    env_cmp.read_file "tests/expected-results-1-original.txt" = some "hello " ∧
    ((check_run env_cmp "tests/expected-results-1-original.txt" 1 []).outcome = .ok ↔
      pyStrip "hello " = actual_output_of (raw_outputs env_cmp [] 1)) :=
  ⟨fun _ _ => rfl, rfl,
    (C7_comparator_exact env_cmp "tests/expected-results-1-original.txt" "hello "
      1 [] [] (fun _ _ => rfl) rfl).1⟩

/-- C10: a file that cannot be opened is an uncaught exception, not a
`false` answer and not a reported test failure: the literal probe
`check_for_string` propagates the error when the path is not cached, and
`check_run` with an unreadable fixture crashes after its invocations with no
comparison performed and no failure report. -/
theorem C10_missing_file_crashes :
    (∀ (fs : String → Option String) (cache : Cache) (path s : String),
      cache.lookup path = none → fs path = none →
      check_for_string fs cache path s = .error "FileNotFoundError") ∧
    (∀ (env : Env) (expected_results_file : String) (count : Nat) (args : List String),
      (∀ i, i < count → (env.run (build_cmd args i) i).2 = 0) →
      env.read_file expected_results_file = none →
      check_run env expected_results_file count args =
        ⟨(List.range count).map (build_cmd args), false, none,
          .crash "FileNotFoundError"⟩) := by
  constructor
  · intro fs cache path s hc hfs
    simp only [check_for_string, hc, hfs]
  · intro env expected_results_file count args hok hnone
    have hrun := run_iters_ok env args (List.range count) [] []
      (fun i hi => hok i (List.mem_range.mp hi))
    rw [check_run, hrun]
    simp only [List.nil_append, hnone]

/-- Witness for C10: an uncached probe on a missing source file errors, and
a `check_run` whose fixture is missing crashes uncompared. -/
theorem C10_missing_file_crashes_witness :
    (([] : Cache).lookup source = none ∧ fs_none source = none ∧
      check_for_string fs_none [] source "--debug" = .error "FileNotFoundError") ∧
    ((∀ i, i < 1 → (env_nofix.run (build_cmd [] i) i).2 = 0) ∧
      env_nofix.read_file "tests/expected-results-1-original.txt" = none ∧
      check_run env_nofix "tests/expected-results-1-original.txt" 1 [] =
        ⟨(List.range 1).map (build_cmd []), false, none, .crash "FileNotFoundError"⟩) :=
  ⟨⟨rfl, rfl, C10_missing_file_crashes.1 fs_none [] source "--debug" rfl rfl⟩,
   ⟨fun _ _ => rfl, rfl,
    C10_missing_file_crashes.2 env_nofix "tests/expected-results-1-original.txt"
      1 [] (fun _ _ => rfl) rfl⟩⟩

/-- Helper: a cache hit answers from the cached content and leaves the cache
unchanged, never touching the file system. -/
theorem check_for_string_hit (fs : String → Option String) (cache : Cache)
    (path s content : String) (h : cache.lookup path = some content) :
    check_for_string fs cache path s = .ok (occurs s content, cache) := by
  simp only [check_for_string, h]

/-- Helper: both probes of a flag conjunct hit the cache when the source
path is cached. -/
theorem probe_pair_hit (fs : String → Option String) (cache : Cache)
    (s1 s2 content : String) (h : cache.lookup source = some content) :
    probe_pair fs cache s1 s2 =
      .ok (occurs s1 content && occurs s2 content, cache) := by
  simp only [probe_pair, check_for_string_hit fs cache source s1 content h]
  cases hb : occurs s1 content
  · simp
  · simp [check_for_string_hit fs cache source s2 content h]

/-- Helper: with the source path cached, detection is computed entirely from
the cached text — whatever the file system currently holds — and the cache
is left unchanged. -/
theorem detect_cached (load : LoadResult) (fs : String → Option String)
    (cache : Cache) (content : String) (h : cache.lookup source = some content) :
    detect load fs cache = .ok (case_value
      (check_for_function load "add" && check_for_function load "subtract" &&
        check_for_function load "main")
      (check_for_function load "divide" && check_for_function load "multiply")
      (occurs "Adding then subtracting!" content &&
        occurs "Subtracting then adding!" content)
      (occurs "import logging" content && occurs "logging.basicConfig" content)
      (occurs "import argparse" content && occurs "--debug" content)
      (occurs "import argparse" content && occurs "--seed" content), cache) := by
  simp only [detect,
    probe_pair_hit fs cache "Adding then subtracting!" "Subtracting then adding!" content h,
    probe_pair_hit fs cache "import logging" "logging.basicConfig" content h,
    probe_pair_hit fs cache "import argparse" "--debug" content h,
    probe_pair_hit fs cache "import argparse" "--seed" content h]

/-- C9 counterexample: the source-text cache is a module-level global, so a
second harness run in the same process is not isolated from the first.  A
first run on a full-featured target caches its text; after the target file
changes to a bare one, a second run starting from that process-global cache
still computes mask 63 from the stale text, while an isolated (fresh-cache)
run computes mask 3. -/
theorem C9_global_cache_not_isolated :
    detect load_all fs_full [] = .ok (63, [(source, content_full)]) ∧
    detect load_all fs_plain [(source, content_full)] =
      .ok (63, [(source, content_full)]) ∧
    detect load_all fs_plain [] = .ok (3, [(source, content_plain)]) ∧
    (63 : Nat) ≠ 3 :=
  ⟨rfl, rfl, rfl, by decide⟩

/-- C9 (amended): running detection twice on the same unchanged target
yields the same mask — the second run may start from the first run's cache
and still agrees, so results are idempotent; but the cache is process-global
rather than per-run: whenever the source path is cached, detection answers
from the cached text regardless of what the file system currently holds, so
two runs in the same process are not isolated when the target changes
between them. -/
theorem C9_idempotent_runs (load : LoadResult) (fs : String → Option String)
    (content : String) (hfs : fs source = some content) :
    (∃ m c1 c2, detect load fs [] = .ok (m, c1) ∧ detect load fs c1 = .ok (m, c2)) ∧
    (∀ (fs' : String → Option String) (cache : Cache) (c : String),
      cache.lookup source = some c →
      detect load fs' cache = .ok (case_value
        (check_for_function load "add" && check_for_function load "subtract" &&
          check_for_function load "main")
        (check_for_function load "divide" && check_for_function load "multiply")
        (occurs "Adding then subtracting!" c && occurs "Subtracting then adding!" c)
        (occurs "import logging" c && occurs "logging.basicConfig" c)
        (occurs "import argparse" c && occurs "--debug" c)
        (occurs "import argparse" c && occurs "--seed" c), cache)) := by
  constructor
  · obtain ⟨c1, h1, hC1⟩ := detect_spec load fs [] content (coherent_nil fs) hfs
    obtain ⟨c2, h2, _⟩ := detect_spec load fs c1 content hC1 hfs
    exact ⟨_, c1, c2, h1, h2⟩
  · intro fs' cache c h
    exact detect_cached load fs' cache c h

/-- Witness for C9's idempotence part in the concrete world `fs_w`. -/
theorem C9_idempotent_runs_witness :
    fs_w source = some content_w ∧
    (∃ m c1 c2, detect load_w fs_w [] = .ok (m, c1) ∧
      detect load_w fs_w c1 = .ok (m, c2)) :=
  ⟨rfl, (C9_idempotent_runs load_w fs_w content_w rfl).1⟩

end Tester
